import Mathlib

/-!
Verification of the CloudflareTurnstile repository (src/app.py,
src/utils/turnstile.py, src/backup.py) against its specification.

The Python code is shallowly embedded: pure computations (config merging,
proxy-entry parsing, result-dictionary construction, HTTP status mapping)
are translated directly; the effectful browser interactions (navigation,
selector waits, script evaluation, wall-clock reads) are abstracted into
an explicit environment record whose fields give the outcome of each
external operation, and the `asyncio.Queue` browser pool is modelled by
its free-slot count (a `Nat`), with `get` decrementing and `put`
incrementing.  Elapsed times are rationals; Python `round(x, 3)` is
modelled exactly (round half to even).
-/

/-- Truthiness of a Python `Optional[str]` value: `not x` is true exactly
when `x` is `None` or the empty string. -/
def pyFalsy : Option String → Bool
  | none => true
  | some s => s.isEmpty

/-- Python `bool(s)` on a string: false exactly for the empty string.
This is the conversion `argparse` applies when a flag is declared with
`type=bool` (src/backup.py, `parse_args`). -/
def pyBool (s : String) : Bool := !s.isEmpty

/-- Python `round` to the nearest integer: round half to even. -/
def pyRound (q : ℚ) : ℤ :=
  if q - ⌊q⌋ = (1 : ℚ) / 2 then (if 2 ∣ ⌊q⌋ then ⌊q⌋ else ⌊q⌋ + 1)
  else round q

/-- Python `round(x, 3)`: three-decimal rounding used for elapsed times. -/
def round3 (q : ℚ) : ℚ := (pyRound (q * 1000) : ℚ) / 1000

theorem pyRound_nonneg (q : ℚ) (hq : 0 ≤ q) : 0 ≤ pyRound q := by
  unfold pyRound
  have hfl : (0 : ℤ) ≤ ⌊q⌋ := Int.floor_nonneg.mpr hq
  split
  · split
    · exact hfl
    · omega
  · rw [round_eq]
    exact Int.floor_nonneg.mpr (by linarith)

theorem round3_nonneg (q : ℚ) (hq : 0 ≤ q) : 0 ≤ round3 q := by
  unfold round3
  have h : (0 : ℤ) ≤ pyRound (q * 1000) := pyRound_nonneg _ (by positivity)
  have h' : (0 : ℚ) ≤ (pyRound (q * 1000) : ℚ) := by exact_mod_cast h
  exact div_nonneg h' (by norm_num)

/-! ## JSON values and Python dict merging (src/app.py, `load_config`) -/

/-- JSON values as parsed by `json.load`; objects keep insertion order,
mirroring Python dicts. -/
inductive JValue where
  | bool (b : Bool)
  | num (n : ℤ)
  | str (s : String)
  | obj (kvs : List (String × JValue))
  | arr (vs : List JValue)
  | null

/-- A Python dict of JSON values (insertion-ordered key/value pairs; a
dict produced by `json.load` has pairwise-distinct keys). -/
abbrev JObj := List (String × JValue)

/-- Dict lookup (first matching key). -/
def jlookup : JObj → String → Option JValue
  | [], _ => none
  | (k, v) :: rest, key => if k = key then some v else jlookup rest key

/-- Python dict item insertion `d[k] = v`: update in place if the key is
present, otherwise append. -/
def insertKV (d : JObj) (k : String) (v : JValue) : JObj :=
  if d.any (fun p => p.1 == k) then
    d.map (fun p => if p.1 = k then (k, v) else p)
  else d ++ [(k, v)]

/-- Python `{**a, **b}`: insert every pair of `b` into `a` in order. -/
def dictUpdate (a b : JObj) : JObj :=
  b.foldl (fun d p => insertKV d p.1 p.2) a

/-- The keys of a dict are pairwise distinct (always true of the output
of `json.load`). -/
def keysNodup (d : JObj) : Prop := (d.map Prod.fst).Nodup

instance (d : JObj) : Decidable (keysNodup d) := by
  unfold keysNodup; infer_instance

/-- First-some choice, used to state lookup behaviour of dict merges. -/
def orElseO (a b : Option JValue) : Option JValue :=
  match a with
  | some v => some v
  | none => b

/-- The `api` sub-object of the hard-coded defaults in `load_config`
(src/app.py lines 22-26). -/
def default_api : JObj :=
  [("enabled", JValue.bool false),
   ("host", JValue.str "0.0.0.0"),
   ("port", JValue.num 8000)]

/-- The hard-coded default configuration in `load_config`
(src/app.py lines 17-27). -/
def default_config : JObj :=
  [("headless", JValue.bool true),
   ("thread", JValue.num 2),
   ("browser_type", JValue.str "chromium"),
   ("proxy_support", JValue.bool false),
   ("api", JValue.obj default_api)]

/-- Outcome of attempting to open and parse `data/config.json`:
the file is absent (`FileNotFoundError`), it fails to read or parse
(any other exception), or it parses to a JSON value. -/
inductive ConfigFile where
  | missing
  | unreadable
  | parsed (v : JValue)

/-- `load_config` (src/app.py lines 15-44).  A missing file and any
read/parse failure both yield the defaults.  A parsed file is merged
shallowly over the defaults (`{**default_config, **config}`), and when
the file has an `api` key its sub-object is merged one level deep over
the default `api`.  A file whose top level is not an object, or whose
`api` value is not an object, makes the merge expression raise
`TypeError`, which the `except Exception` arm converts to the defaults. -/
def load_config : ConfigFile → JObj
  | ConfigFile.missing => default_config
  | ConfigFile.unreadable => default_config
  | ConfigFile.parsed v =>
    match v with
    | JValue.obj config =>
      let merged := dictUpdate default_config config
      match jlookup config "api" with
      | some (JValue.obj apiKvs) =>
          insertKV merged "api" (JValue.obj (dictUpdate default_api apiKvs))
      | some _ => default_config
      | none => merged
    | _ => default_config

/-! ## Proxy selection (src/utils/turnstile.py `_setup_context`,
src/backup.py `_solve_turnstile` lines 129-153) -/

/-- The proxy configuration passed to `browser.new_context`. -/
inductive ProxyConfig where
  | noProxy
  | server (s : String)
  | auth (server user pass_ : String)
deriving DecidableEq

/-- Python exceptions distinguished by the legacy server's pre-`try`
phase: `FileNotFoundError` from `open("proxies.txt")`,
`ValueError("Invalid proxy format")`, and generic `Exception(msg)`. -/
inductive PyExc where
  | fileNotFound
  | invalidProxyFormat
  | exc (msg : String)
deriving DecidableEq

/-- `str(e)` for a modelled exception. -/
def PyExc.message : PyExc → String
  | PyExc.fileNotFound => "[Errno 2] No such file or directory: 'proxies.txt'"
  | PyExc.invalidProxyFormat => "Invalid proxy format"
  | PyExc.exc m => m

/-- Splitting a character list at every occurrence of a separator
character, keeping empty segments — the semantics of Python's
`str.split` with an explicit one-character separator. -/
def splitOnChar (c : Char) : List Char → List (List Char)
  | [] => [[]]
  | x :: xs =>
    if x = c then [] :: splitOnChar c xs
    else
      match splitOnChar c xs with
      | [] => [[x]]
      | g :: gs => (x :: g) :: gs

/-- Python `s.split(c)` for a one-character separator. -/
def pySplit (s : String) (c : Char) : List String :=
  (splitOnChar c s.data).map (fun l => String.mk l)

/-- The ASCII whitespace characters Python's `str.strip` removes. -/
def isSpaceChar (c : Char) : Bool :=
  c = ' ' || c = '\t' || c = '\n' || c = '\r' || c = '\x0b' || c = '\x0c'

/-- Python `s.strip()`: remove whitespace from both ends. -/
def pyStrip (s : String) : String :=
  String.mk (((s.data.dropWhile isSpaceChar).reverse.dropWhile isSpaceChar).reverse)

/-- Python `[line.strip() for line in f if line.strip()]`. -/
def stripLines (lines : List String) : List String :=
  (lines.map pyStrip).filter (fun l => l ≠ "")

/-- `random.choice` on a non-empty list, with the random draw supplied
as an index (reduced modulo the length). -/
def chooseProxy (ps : List String) (chosen : Nat) : String :=
  ps.getD (chosen % ps.length) ""

/-- `Except` success as a Bool. -/
def exceptOk {ε α : Type} : Except ε α → Bool
  | Except.ok _ => true
  | Except.error _ => false

/-- `TurnstileSolver._setup_context` (src/utils/turnstile.py lines
246-271).  `proxyFile = none` means `data/proxies.txt` is absent
(`os.path.exists` is false).  A selected entry with a field count other
than 3 or 5 falls through to the final `return browser.new_context()`:
no proxy and no error. -/
def TurnstileSolver.setup_context (proxy_support : Bool)
    (proxyFile : Option (List String)) (chosen : Nat) : ProxyConfig :=
  if !proxy_support then ProxyConfig.noProxy
  else
    match proxyFile with
    | none => ProxyConfig.noProxy
    | some lines =>
      let proxies := stripLines lines
      if proxies.isEmpty then ProxyConfig.noProxy
      else
        let proxy := chooseProxy proxies chosen
        match pySplit proxy ':' with
        | [_, _, _] => ProxyConfig.server proxy
        | [scheme, ip, port, user, pass_] =>
            ProxyConfig.auth (scheme ++ "://" ++ ip ++ ":" ++ port) user pass_
        | _ => ProxyConfig.noProxy

/-- The proxy/context phase of `TurnstileAPIServer._solve_turnstile`
when proxy support is enabled (src/backup.py lines 133-151).  Unlike the
Solver Core there is no existence check before `open`, so a missing
`proxies.txt` raises `FileNotFoundError`, and a selected entry with a
field count other than 3 or 5 raises `ValueError("Invalid proxy
format")`. -/
def TurnstileAPIServer.proxyContext (proxyFile : Option (List String))
    (chosen : Nat) : Except PyExc ProxyConfig :=
  match proxyFile with
  | none => Except.error PyExc.fileNotFound
  | some lines =>
    let proxies := stripLines lines
    if proxies.isEmpty then Except.ok ProxyConfig.noProxy
    else
      let proxy := chooseProxy proxies chosen
      match pySplit proxy ':' with
      | [_, _, _] => Except.ok (ProxyConfig.server proxy)
      | [scheme, ip, port, user, pass_] =>
          Except.ok (ProxyConfig.auth (scheme ++ "://" ++ ip ++ ":" ++ port) user pass_)
      | _ => Except.error PyExc.invalidProxyFormat

/-- Context creation of `TurnstileAPIServer._solve_turnstile`
(src/backup.py lines 133-153): the proxy phase runs only when
`proxy_support` is set, otherwise a plain context is created. -/
def TurnstileAPIServer.contextSetup (proxy_support : Bool)
    (proxyFile : Option (List String)) (chosen : Nat) : Except PyExc ProxyConfig :=
  if proxy_support then TurnstileAPIServer.proxyContext proxyFile chosen
  else Except.ok ProxyConfig.noProxy

/-! ## Solve results -/

/-- The result dictionary a solve routine hands back.  A key absent from
the Python dict is `none` (`token` is present only on success, `time` is
absent only when the fault precedes `start_time`). -/
structure SolveResult where
  status : String
  token : Option String
  error : Option String
  time : Option ℚ
deriving DecidableEq

/-! ## Solver Core `solve` (src/utils/turnstile.py lines 210-352) -/

/-- Outcome of one poll attempt inside `_solve_on_page`: the
`page.evaluate` call either raises or returns the hidden field's value
(`none` models JavaScript `null` when the field does not exist). -/
inductive PollOutcome where
  | raises
  | ok (tok : Option String)

/-- Python `if token and token.strip():` — the token is a non-`None`,
non-empty string whose strip is non-empty. -/
def tokenTruthy : Option String → Bool
  | none => false
  | some s => !s.isEmpty && !(pyStrip s).isEmpty

/-- Environment of one Solver Core `solve` call: the outcome of every
external operation it performs, in program order.  `startTime` is the
`time.time()` read at the top of `solve`; `failTime` is the read in its
`except` arm; `pollTimes i` is the read on a successful poll attempt
`i`. -/
structure CoreEnv where
  startTime : ℚ
  failTime : ℚ
  contextOk : Bool
  contextErrMsg : String
  gotoOk : Bool
  gotoErrMsg : String
  widgetAppears : Bool
  clickOk : Bool
  clickErrMsg : String
  polls : Fin 30 → PollOutcome
  pollTimes : Fin 30 → ℚ
  closeOk : Bool
  closeErrMsg : String

/-- The 30-attempt poll loop of `_solve_on_page` (src/utils/turnstile.py
lines 321-350): a truthy token on attempt `i` returns the success
dictionary with the elapsed time measured there; an empty token or a
raising evaluation moves to the next attempt (the periodic best-effort
re-click swallows its own errors and cannot change the result). -/
def pollLoop (env : CoreEnv) (i : Nat) : Option SolveResult :=
  if h : i < 30 then
    match env.polls ⟨i, h⟩ with
    | PollOutcome.ok tok =>
        if tokenTruthy tok then
          some { status := "success", token := tok, error := none,
                 time := some (round3 (env.pollTimes ⟨i, h⟩ - env.startTime)) }
        else pollLoop env (i + 1)
    | PollOutcome.raises => pollLoop env (i + 1)
  else none
termination_by 30 - i

/-- `TurnstileSolver._solve_on_page` (src/utils/turnstile.py lines
273-352): navigation failure propagates with its own message; a widget
that never appears raises `"Turnstile failed to load"`; a raising
JavaScript fallback click propagates; otherwise the poll loop runs and
exhaustion raises the 30-attempt message. -/
def solveOnPage (env : CoreEnv) : Except String SolveResult :=
  if !env.gotoOk then Except.error env.gotoErrMsg
  else if !env.widgetAppears then Except.error "Turnstile failed to load"
  else if !env.clickOk then Except.error env.clickErrMsg
  else
    match pollLoop env 0 with
    | some r => Except.ok r
    | none => Except.error "Failed to get Turnstile token after 30 attempts"

/-- `TurnstileSolver.solve` (src/utils/turnstile.py lines 210-244).
Validation failure returns before `start_time` and before the pool is
touched.  Otherwise a slot is taken (`browser_pool.get`), and every
branch of the `try`/`except` puts it back exactly once; any exception
escaping `_setup_context`/`new_page` (`contextOk = false`),
`_solve_on_page`, or `context.close` is converted by the `except` arm
into an error dictionary carrying `str(e)` and the elapsed time. -/
def TurnstileSolver.solve (url sitekey action cdata : Option String)
    (env : CoreEnv) (pool : Nat) : SolveResult × Nat :=
  if pyFalsy url || pyFalsy sitekey then
    ({ status := "error", token := none,
       error := some "Both 'url' and 'sitekey' are required", time := none }, pool)
  else
    let pool1 := pool - 1
    if !env.contextOk then
      ({ status := "error", token := none, error := some env.contextErrMsg,
         time := some (round3 (env.failTime - env.startTime)) }, pool1 + 1)
    else
      match solveOnPage env with
      | Except.ok r =>
          if env.closeOk then (r, pool1 + 1)
          else ({ status := "error", token := none, error := some env.closeErrMsg,
                  time := some (round3 (env.failTime - env.startTime)) }, pool1 + 1)
      | Except.error msg =>
          ({ status := "error", token := none, error := some msg,
             time := some (round3 (env.failTime - env.startTime)) }, pool1 + 1)

/-- One Solver Core `solve` invocation (arguments plus environment),
used to state pool conservation over sequences of completed calls. -/
structure CoreCall where
  url : Option String
  sitekey : Option String
  action : Option String
  cdata : Option String
  env : CoreEnv

/-- Run a finite sequence of completed `solve` calls, threading the
pool's free-slot count. -/
def runCoreCalls (calls : List CoreCall) (pool : Nat) : Nat :=
  calls.foldl
    (fun p c => (TurnstileSolver.solve c.url c.sitekey c.action c.cdata c.env p).2) pool

/-! ## Legacy Server `_solve_turnstile` / `process_turnstile`
(src/backup.py lines 127-237) -/

/-- Outcome of one poll attempt of the legacy loop: `page.input_value`
either raises (which the inner `except` treats like an unready field; a
raising widget click is observationally the same) or returns the field's
string value. -/
inductive PollOutcome15 where
  | raises
  | value (s : String)

/-- Whether a legacy poll attempt fails to produce a token. -/
def noTok15 : PollOutcome15 → Bool
  | PollOutcome15.raises => true
  | PollOutcome15.value s => s == ""

/-- Whether a Solver Core poll attempt fails to produce a token. -/
def noTok : PollOutcome → Bool
  | PollOutcome.raises => true
  | PollOutcome.ok t => !tokenTruthy t

/-- Environment of one legacy `_solve_turnstile` call. -/
structure LegacyEnv where
  proxyFile : Option (List String)
  chosenProxy : Nat
  pageOk : Bool
  pageErrMsg : String
  startTime : ℚ
  failTime : ℚ
  gotoOk : Bool
  gotoErrMsg : String
  resizeOk : Bool
  resizeErrMsg : String
  polls : Fin 15 → PollOutcome15
  pollTimes : Fin 15 → ℚ

/-- The 15-attempt poll loop of `_solve_turnstile` (src/backup.py lines
169-194): a non-empty `input_value` returns the success dictionary; an
empty value clicks and retries; a raising attempt retries unless it is
the 15th (`attempt < 14` fails), in which case the 15-attempt message is
raised; falling off the loop raises the same message. -/
def legacyPollLoop (env : LegacyEnv) (i : Nat) : Except String SolveResult :=
  if h : i < 15 then
    match env.polls ⟨i, h⟩ with
    | PollOutcome15.value s =>
        if s = "" then legacyPollLoop env (i + 1)
        else Except.ok { status := "success", token := some s, error := none,
                         time := some (round3 (env.pollTimes ⟨i, h⟩ - env.startTime)) }
    | PollOutcome15.raises =>
        if i < 14 then legacyPollLoop env (i + 1)
        else Except.error "Failed to get Turnstile token after 15 attempts"
  else Except.error "Failed to get Turnstile token after 15 attempts"
termination_by 15 - i

/-- The body of the legacy `try` block after `start_time` (src/backup.py
lines 159-194): route/goto, the XPath resize, then the poll loop.  An
`Except.error` is an exception escaping the attempt into the outer
handler. -/
def legacyAttempt (env : LegacyEnv) : Except String SolveResult :=
  if !env.gotoOk then Except.error env.gotoErrMsg
  else if !env.resizeOk then Except.error env.resizeErrMsg
  else legacyPollLoop env 0

/-- What one completed legacy `_solve_turnstile` call leaves behind:
its outcome (`Except.error` = an exception escaping the whole function),
the pool's free-slot count, and whether the browsing context created for
the call was closed. -/
structure LegacyResult where
  outcome : Except PyExc SolveResult
  pool : Nat
  contextClosed : Bool

/-- `TurnstileAPIServer._solve_turnstile` (src/backup.py lines 127-206).
The slot is taken first; the proxy phase and `new_page` run *before* the
`try` block, so an exception there escapes the function with the slot
still checked out and no context close.  Inside the `try`, success
closes the context and returns the slot before returning, and the outer
`except` does the same before returning the error dictionary. -/
def TurnstileAPIServer.solve_turnstile (proxy_support : Bool)
    (url sitekey action cdata : Option String)
    (env : LegacyEnv) (pool : Nat) : LegacyResult :=
  let pool1 := pool - 1
  match TurnstileAPIServer.contextSetup proxy_support env.proxyFile env.chosenProxy with
  | Except.error e => { outcome := Except.error e, pool := pool1, contextClosed := false }
  | Except.ok _ =>
    if !env.pageOk then
      { outcome := Except.error (PyExc.exc env.pageErrMsg), pool := pool1,
        contextClosed := false }
    else
      match legacyAttempt env with
      | Except.ok r =>
          { outcome := Except.ok r, pool := pool1 + 1, contextClosed := true }
      | Except.error msg =>
          { outcome := Except.ok
              { status := "error", token := none, error := some msg,
                time := some (round3 (env.failTime - env.startTime)) },
            pool := pool1 + 1, contextClosed := true }

/-- `TurnstileAPIServer.process_turnstile` (src/backup.py lines
208-237): the `/turnstile` handler.  Returns the JSON body and HTTP
status, plus the pool count after the call. -/
def TurnstileAPIServer.process_turnstile (proxy_support : Bool)
    (url sitekey action cdata : Option String)
    (env : LegacyEnv) (pool : Nat) : (SolveResult × Nat) × Nat :=
  if pyFalsy url || pyFalsy sitekey then
    (({ status := "error", token := none,
        error := some "Both 'url' and 'sitekey' are required", time := none }, 400), pool)
  else
    let r := TurnstileAPIServer.solve_turnstile proxy_support url sitekey action cdata env pool
    match r.outcome with
    | Except.ok result =>
        ((result, if result.status = "success" then 200 else 422), r.pool)
    | Except.error e =>
        (({ status := "error", token := none, error := some e.message, time := none }, 500),
         r.pool)

/-! ## Solver status and health endpoint (src/utils/turnstile.py
`get_status`, src/app.py `health_check`) -/

/-- The live state of a constructed `TurnstileSolver` that `get_status`
reads: `pool` is `browser_pool.qsize()`. -/
structure SolverState where
  headless : Bool
  thread_count : Nat
  browser_type : String
  proxy_support : Bool
  useragent : String
  hasDisplay : Bool
  pool : Nat
deriving DecidableEq

/-- The dictionary `get_status` returns. -/
structure SolverStatus where
  initialized : Bool
  thread_count : Nat
  browser_type : String
  headless : Bool
  has_display : Bool
  user_agent : String
  pool_size : Nat
deriving DecidableEq

/-- `TurnstileSolver.get_status` (src/utils/turnstile.py lines 369-378):
`initialized` is `not browser_pool.empty()`, `pool_size` is the current
`qsize`, and the user agent is truncated to 50 characters with an
ellipsis marker. -/
def TurnstileSolver.get_status (s : SolverState) : SolverStatus :=
  { initialized := !(s.pool == 0),
    thread_count := s.thread_count,
    browser_type := s.browser_type,
    headless := s.headless,
    has_display := s.hasDisplay,
    user_agent := if s.useragent.length > 50 then (s.useragent.take 50) ++ "..."
                  else s.useragent,
    pool_size := s.pool }

/-- A `/health` response body. -/
inductive HealthResponse where
  | up (pool_size : Nat)
  | down (message : String)
deriving DecidableEq

/-- `health_check` (src/app.py lines 154-163): `none` models the
module-level `solver` still being `None`. -/
def health_check : Option SolverState → HealthResponse
  | none => HealthResponse.down "Solver not initialized"
  | some s =>
    if (TurnstileSolver.get_status s).initialized then
      HealthResponse.up (TurnstileSolver.get_status s).pool_size
    else HealthResponse.down "Solver pool empty"

/-! ## Legacy launcher boolean flags (src/backup.py `parse_args`) -/

/-- Parsing of `--headless` / `--proxy` (src/backup.py lines 281, 285):
declared with `type=bool, default=False`, so an omitted flag yields the
default `False` and a supplied textual value `v` yields `bool(v)`. -/
def parseBoolFlag : Option String → Bool
  | none => false
  | some s => pyBool s

/-! ## Helper lemmas -/

theorem orElseO_none (a : Option JValue) : orElseO a none = a := by
  cases a <;> rfl

theorem jlookup_append (a b : JObj) (k : String) :
    jlookup (a ++ b) k = orElseO (jlookup a k) (jlookup b k) := by
  induction a with
  | nil => simp [jlookup, orElseO]
  | cons p rest ih =>
    obtain ⟨k0, v0⟩ := p
    by_cases h : k0 = k
    · simp [jlookup, h, orElseO]
    · simp [jlookup, h, ih]

theorem jlookup_eq_none_of_not_mem_keys (d : JObj) (k : String)
    (h : k ∉ d.map Prod.fst) : jlookup d k = none := by
  induction d with
  | nil => rfl
  | cons p rest ih =>
    obtain ⟨k0, v0⟩ := p
    simp only [List.map_cons, List.mem_cons] at h
    push_neg at h
    have h1 : k0 ≠ k := fun hh => h.1 hh.symm
    simp [jlookup, h1, ih h.2]

theorem jlookup_cons_pos (k : String) (v : JValue) (rest : JObj) :
    jlookup ((k, v) :: rest) k = some v := by
  unfold jlookup
  rw [if_pos rfl]

theorem jlookup_cons_neg {k0 k : String} (h : k0 ≠ k) (v : JValue) (rest : JObj) :
    jlookup ((k0, v) :: rest) k = jlookup rest k := by
  conv_lhs => unfold jlookup
  rw [if_neg h]

theorem jlookup_map_update (d : JObj) (k : String) (v : JValue) :
    jlookup (d.map (fun p => if p.1 = k then (k, v) else p)) k =
      if d.any (fun p => p.1 == k) then some v else none := by
  induction d with
  | nil => simp [jlookup]
  | cons p rest ih =>
    obtain ⟨k0, v0⟩ := p
    rw [List.map_cons, List.any_cons]
    by_cases h : k0 = k
    · subst h
      rw [if_pos (show (k0, v0).1 = k0 from rfl)]
      rw [jlookup_cons_pos]
      simp
    · rw [if_neg (show ¬(k0, v0).1 = k from h)]
      rw [jlookup_cons_neg h, ih]
      have hbeq : (k0 == k) = false := by simp [h]
      rw [hbeq, Bool.false_or]

theorem jlookup_map_update_ne (d : JObj) (k k' : String) (v : JValue) (hne : k' ≠ k) :
    jlookup (d.map (fun p => if p.1 = k then (k, v) else p)) k' = jlookup d k' := by
  induction d with
  | nil => rfl
  | cons p rest ih =>
    obtain ⟨k0, v0⟩ := p
    rw [List.map_cons]
    by_cases h : k0 = k
    · subst h
      rw [if_pos (show (k0, v0).1 = k0 from rfl)]
      rw [jlookup_cons_neg (Ne.symm hne), jlookup_cons_neg (Ne.symm hne), ih]
    · rw [if_neg (show ¬(k0, v0).1 = k from h)]
      by_cases h2 : k0 = k'
      · subst h2
        rw [jlookup_cons_pos, jlookup_cons_pos]
      · rw [jlookup_cons_neg h2, jlookup_cons_neg h2, ih]

theorem jlookup_insertKV (d : JObj) (k : String) (v : JValue) (k' : String) :
    jlookup (insertKV d k v) k' = if k' = k then some v else jlookup d k' := by
  unfold insertKV
  by_cases hmem : d.any (fun p => p.1 == k) = true
  · rw [if_pos hmem]
    by_cases hk : k' = k
    · subst hk
      rw [if_pos rfl, jlookup_map_update, if_pos hmem]
    · rw [if_neg hk, jlookup_map_update_ne d k k' v hk]
  · rw [if_neg hmem, jlookup_append]
    have hnone : jlookup d k = none := by
      apply jlookup_eq_none_of_not_mem_keys
      intro hk
      apply hmem
      rw [List.any_eq_true]
      obtain ⟨p, hp, hfst⟩ := List.mem_map.mp hk
      exact ⟨p, hp, by simp [hfst]⟩
    by_cases hk : k' = k
    · subst hk
      rw [hnone, if_pos rfl, jlookup_cons_pos]
      rfl
    · rw [if_neg hk, jlookup_cons_neg (Ne.symm hk)]
      show orElseO (jlookup d k') (jlookup [] k') = jlookup d k'
      rw [show jlookup [] k' = none from rfl, orElseO_none]

theorem jlookup_dictUpdate (a b : JObj) (hb : keysNodup b) (k : String) :
    jlookup (dictUpdate a b) k = orElseO (jlookup b k) (jlookup a k) := by
  induction b generalizing a with
  | nil => simp [dictUpdate, jlookup, orElseO]
  | cons p rest ih =>
    obtain ⟨k0, v0⟩ := p
    have hb' : keysNodup rest := by
      unfold keysNodup at hb ⊢
      simp only [List.map_cons, List.nodup_cons] at hb
      exact hb.2
    have hk0 : k0 ∉ rest.map Prod.fst := by
      unfold keysNodup at hb
      simp only [List.map_cons, List.nodup_cons] at hb
      exact hb.1
    show jlookup (dictUpdate (insertKV a k0 v0) rest) k = _
    rw [ih _ hb']
    by_cases h : k = k0
    · subst h
      rw [jlookup_eq_none_of_not_mem_keys rest k hk0, jlookup_insertKV,
          if_pos rfl, jlookup_cons_pos]
      rfl
    · rw [jlookup_insertKV, if_neg h, jlookup_cons_neg (Ne.symm h)]

theorem pollLoop_eq_none (env : CoreEnv)
    (hp : ∀ j : Fin 30, noTok (env.polls j) = true) :
    ∀ i, pollLoop env i = none := by
  have aux : ∀ k i, 30 ≤ i + k → pollLoop env i = none := by
    intro k
    induction k with
    | zero =>
      intro i hi
      rw [pollLoop]
      rw [dif_neg (by omega : ¬ i < 30)]
    | succ k ih =>
      intro i hi
      rw [pollLoop]
      by_cases h : i < 30
      · rw [dif_pos h]
        have hj := hp ⟨i, h⟩
        cases hpo : env.polls ⟨i, h⟩ with
        | raises => exact ih (i + 1) (by omega)
        | ok tok =>
          rw [hpo] at hj
          have htok : tokenTruthy tok = false := by
            unfold noTok at hj
            simpa using hj
          show (if tokenTruthy tok = true then
                  some { status := "success", token := tok, error := none,
                         time := some (round3 (env.pollTimes ⟨i, h⟩ - env.startTime)) }
                else pollLoop env (i + 1)) = none
          rw [htok, if_neg (by simp)]
          exact ih (i + 1) (by omega)
      · rw [dif_neg h]
  intro i
  exact aux 30 i (by omega)

theorem pollLoop_time_isSome (env : CoreEnv) :
    ∀ i r, pollLoop env i = some r → r.time.isSome := by
  have aux : ∀ k i, 30 ≤ i + k → ∀ r, pollLoop env i = some r → r.time.isSome := by
    intro k
    induction k with
    | zero =>
      intro i hi r hr
      rw [pollLoop, dif_neg (by omega : ¬ i < 30)] at hr
      exact absurd hr (by simp)
    | succ k ih =>
      intro i hi r hr
      rw [pollLoop] at hr
      by_cases h : i < 30
      · rw [dif_pos h] at hr
        cases hpo : env.polls ⟨i, h⟩ with
        | raises =>
          rw [hpo] at hr
          exact ih (i + 1) (by omega) r hr
        | ok tok =>
          rw [hpo] at hr
          have hr' : (if tokenTruthy tok = true then
                  some { status := "success", token := tok, error := none,
                         time := some (round3 (env.pollTimes ⟨i, h⟩ - env.startTime)) }
                else pollLoop env (i + 1)) = some r := hr
          by_cases htok : tokenTruthy tok = true
          · rw [if_pos htok] at hr'
            cases hr'
            rfl
          · rw [if_neg htok] at hr'
            exact ih (i + 1) (by omega) r hr'
      · rw [dif_neg h] at hr
        exact absurd hr (by simp)
  intro i
  exact aux 30 i (by omega)

theorem legacyPollLoop_error_of_noTok (env : LegacyEnv)
    (hp : ∀ j : Fin 15, noTok15 (env.polls j) = true) :
    ∀ i, legacyPollLoop env i =
      Except.error "Failed to get Turnstile token after 15 attempts" := by
  have aux : ∀ k i, 15 ≤ i + k → legacyPollLoop env i =
      Except.error "Failed to get Turnstile token after 15 attempts" := by
    intro k
    induction k with
    | zero =>
      intro i hi
      rw [legacyPollLoop, dif_neg (by omega : ¬ i < 15)]
    | succ k ih =>
      intro i hi
      rw [legacyPollLoop]
      by_cases h : i < 15
      · rw [dif_pos h]
        have hj := hp ⟨i, h⟩
        cases hpo : env.polls ⟨i, h⟩ with
        | raises =>
          show (if i < 14 then legacyPollLoop env (i + 1)
                else Except.error "Failed to get Turnstile token after 15 attempts") =
              Except.error "Failed to get Turnstile token after 15 attempts"
          by_cases h14 : i < 14
          · rw [if_pos h14]
            exact ih (i + 1) (by omega)
          · rw [if_neg h14]
        | value s =>
          rw [hpo] at hj
          have hs : s = "" := by
            unfold noTok15 at hj
            simpa using hj
          show (if s = "" then legacyPollLoop env (i + 1)
                else Except.ok
                  { status := "success", token := some s, error := none,
                    time := some (round3 (env.pollTimes ⟨i, h⟩ - env.startTime)) }) =
              Except.error "Failed to get Turnstile token after 15 attempts"
          rw [if_pos hs]
          exact ih (i + 1) (by omega)
      · rw [dif_neg h]
  intro i
  exact aux 15 i (by omega)

/-! ## Concrete environments for witnesses and counterexamples -/

/-- A Solver Core environment in which every infrastructure step
succeeds and every poll attempt raises. -/
def okCoreEnv : CoreEnv :=
  { startTime := 0, failTime := 0, contextOk := true, contextErrMsg := "",
    gotoOk := true, gotoErrMsg := "", widgetAppears := true, clickOk := true,
    clickErrMsg := "", polls := fun _ => PollOutcome.raises,
    pollTimes := fun _ => 0, closeOk := true, closeErrMsg := "" }

/-- A legacy environment in which every infrastructure step succeeds and
every poll attempt raises; no proxy file on disk. -/
def okLegacyEnv : LegacyEnv :=
  { proxyFile := none, chosenProxy := 0, pageOk := true, pageErrMsg := "",
    startTime := 0, failTime := 0, gotoOk := true, gotoErrMsg := "",
    resizeOk := true, resizeErrMsg := "",
    polls := fun _ => PollOutcome15.raises, pollTimes := fun _ => 0 }

/-- `okLegacyEnv` with a malformed (2-field) proxy entry on file. -/
def badProxyEnv : LegacyEnv := { okLegacyEnv with proxyFile := some ["bad:format"] }

/-! ## Claim theorems -/

/-- Claim C9 (confirmed): `GET /health` returns
`{status:"down", message:"Solver not initialized"}` when the solver is
not constructed; `{status:"up", pool_size:n}` with `n` the current
free-slot count when the solver's live status reports
`initialized = true` (pool non-empty); and
`{status:"down", message:"Solver pool empty"}` when the solver is
constructed but its pool is empty. -/
theorem claim_C9 :
    health_check none = HealthResponse.down "Solver not initialized" ∧
    (∀ s : SolverState, 0 < s.pool →
      (TurnstileSolver.get_status s).initialized = true ∧
      health_check (some s) = HealthResponse.up s.pool) ∧
    (∀ s : SolverState, s.pool = 0 →
      (TurnstileSolver.get_status s).initialized = false ∧
      health_check (some s) = HealthResponse.down "Solver pool empty") := by
  refine ⟨rfl, ?_, ?_⟩
  · intro s hs
    have hinit : (TurnstileSolver.get_status s).initialized = true := by
      show (!(s.pool == 0)) = true
      simp [Nat.pos_iff_ne_zero.mp hs]
    refine ⟨hinit, ?_⟩
    show (if (TurnstileSolver.get_status s).initialized = true then
            HealthResponse.up (TurnstileSolver.get_status s).pool_size
          else HealthResponse.down "Solver pool empty") = HealthResponse.up s.pool
    rw [if_pos hinit]
    rfl
  · intro s hs
    have hinit : (TurnstileSolver.get_status s).initialized = false := by
      show (!(s.pool == 0)) = false
      simp [hs]
    refine ⟨hinit, ?_⟩
    show (if (TurnstileSolver.get_status s).initialized = true then
            HealthResponse.up (TurnstileSolver.get_status s).pool_size
          else HealthResponse.down "Solver pool empty") =
        HealthResponse.down "Solver pool empty"
    rw [if_neg (by simp [hinit])]

/-- Witness for C9 at concrete solver states. -/
theorem claim_C9_witness :
    ((TurnstileSolver.get_status
        { headless := true, thread_count := 2, browser_type := "chromium",
          proxy_support := false, useragent := "ua", hasDisplay := false,
          pool := 2 }).initialized = true ∧
     health_check (some
        { headless := true, thread_count := 2, browser_type := "chromium",
          proxy_support := false, useragent := "ua", hasDisplay := false,
          pool := 2 }) = HealthResponse.up 2) ∧
    ((TurnstileSolver.get_status
        { headless := true, thread_count := 2, browser_type := "chromium",
          proxy_support := false, useragent := "ua", hasDisplay := false,
          pool := 0 }).initialized = false ∧
     health_check (some
        { headless := true, thread_count := 2, browser_type := "chromium",
          proxy_support := false, useragent := "ua", hasDisplay := false,
          pool := 0 }) = HealthResponse.down "Solver pool empty") :=
  ⟨claim_C9.2.1 _ (by decide), claim_C9.2.2 _ rfl⟩

/-- Claim C10 (confirmed): because `--headless` and `--proxy` use
`type=bool`, every non-empty textual argument (including `"False"` and
`"0"`) parses to `True`; `False` arises only from omitting the flag or
passing an empty string. -/
theorem claim_C10 :
    (∀ s : String, s ≠ "" → parseBoolFlag (some s) = true) ∧
    parseBoolFlag (some "False") = true ∧
    parseBoolFlag (some "0") = true ∧
    parseBoolFlag none = false ∧
    parseBoolFlag (some "") = false ∧
    (∀ o : Option String, parseBoolFlag o = false ↔ o = none ∨ o = some "") := by
  refine ⟨?_, rfl, rfl, rfl, rfl, ?_⟩
  · intro s hs
    show (!s.isEmpty) = true
    cases h2 : s.isEmpty with
    | false => rfl
    | true => exact absurd ((String.isEmpty_iff s).mp h2) hs
  · intro o
    cases o with
    | none => simp [parseBoolFlag]
    | some s =>
      unfold parseBoolFlag pyBool
      simp [String.isEmpty_iff]

/-- Witness for C10: a textual `"False"` still parses to `True`. -/
theorem claim_C10_witness :
    ("False" : String) ≠ "" ∧ parseBoolFlag (some "False") = true :=
  ⟨by decide, claim_C10.1 "False" (by decide)⟩

/-- Claim C4 counterexample: with proxy support enabled and
`proxies.txt` missing, the Legacy Server's context creation raises
`FileNotFoundError` instead of producing a proxyless context
(src/backup.py line 136 has no existence check before `open`). -/
theorem claim_C4_cex :
    TurnstileAPIServer.contextSetup true none 0 = Except.error PyExc.fileNotFound := rfl

/-- Claim C4 (corrected): context creation succeeds with no proxy in all
three cases (file missing, file with no non-blank lines, proxy support
disabled) for the Solver Core, and for the Legacy Server when proxy
support is disabled or the file exists with no non-blank lines — but a
missing file makes the Legacy Server raise (see the counterexample). -/
theorem claim_C4 :
    (∀ f c, TurnstileSolver.setup_context false f c = ProxyConfig.noProxy) ∧
    (∀ s c, TurnstileSolver.setup_context s none c = ProxyConfig.noProxy) ∧
    (∀ s lines c, stripLines lines = [] →
      TurnstileSolver.setup_context s (some lines) c = ProxyConfig.noProxy) ∧
    (∀ f c, TurnstileAPIServer.contextSetup false f c = Except.ok ProxyConfig.noProxy) ∧
    (∀ lines c, stripLines lines = [] →
      TurnstileAPIServer.contextSetup true (some lines) c = Except.ok ProxyConfig.noProxy) := by
  refine ⟨fun f c => rfl, ?_, ?_, fun f c => rfl, ?_⟩
  · intro s c
    cases s <;> rfl
  · intro s lines c h
    cases s with
    | false => rfl
    | true =>
      show (if (stripLines lines).isEmpty = true then ProxyConfig.noProxy
            else _) = ProxyConfig.noProxy
      rw [if_pos (by rw [h]; rfl)]
  · intro lines c h
    show TurnstileAPIServer.proxyContext (some lines) c = Except.ok ProxyConfig.noProxy
    show (if (stripLines lines).isEmpty = true then Except.ok ProxyConfig.noProxy
          else _) = Except.ok ProxyConfig.noProxy
    rw [if_pos (by rw [h]; rfl)]

/-- Witness for C4 at concrete inputs (a file of blank lines). -/
theorem claim_C4_witness :
    stripLines ["", "   "] = [] ∧
    TurnstileSolver.setup_context false (some ["x"]) 0 = ProxyConfig.noProxy ∧
    TurnstileSolver.setup_context true none 0 = ProxyConfig.noProxy ∧
    TurnstileSolver.setup_context true (some ["", "   "]) 0 = ProxyConfig.noProxy ∧
    TurnstileAPIServer.contextSetup false none 0 = Except.ok ProxyConfig.noProxy ∧
    TurnstileAPIServer.contextSetup true (some ["", "   "]) 0 = Except.ok ProxyConfig.noProxy :=
  ⟨by decide, claim_C4.1 (some ["x"]) 0, claim_C4.2.1 true 0,
   claim_C4.2.2.1 true ["", "   "] 0 (by decide), claim_C4.2.2.2.1 none 0,
   claim_C4.2.2.2.2 ["", "   "] 0 (by decide)⟩

/-- Claim C3 (confirmed): for every selected proxy line, 3 fields build
an unauthenticated proxy whose server string is the raw line; 5 fields
build `scheme://host:port` with the 4th field as username and the 5th as
password; any other field count makes the Legacy Server raise
`ValueError("Invalid proxy format")` while the Solver Core raises
nothing and creates the context with no proxy. -/
theorem claim_C3 :
    ∀ (lines : List String) (chosen : Nat),
      stripLines lines ≠ [] →
      ((pySplit (chooseProxy (stripLines lines) chosen) ':').length = 3 →
        TurnstileSolver.setup_context true (some lines) chosen =
          ProxyConfig.server (chooseProxy (stripLines lines) chosen) ∧
        TurnstileAPIServer.proxyContext (some lines) chosen =
          Except.ok (ProxyConfig.server (chooseProxy (stripLines lines) chosen))) ∧
      (∀ a b c d e, pySplit (chooseProxy (stripLines lines) chosen) ':' = [a, b, c, d, e] →
        TurnstileSolver.setup_context true (some lines) chosen =
          ProxyConfig.auth (a ++ "://" ++ b ++ ":" ++ c) d e ∧
        TurnstileAPIServer.proxyContext (some lines) chosen =
          Except.ok (ProxyConfig.auth (a ++ "://" ++ b ++ ":" ++ c) d e)) ∧
      ((pySplit (chooseProxy (stripLines lines) chosen) ':').length ≠ 3 →
       (pySplit (chooseProxy (stripLines lines) chosen) ':').length ≠ 5 →
        TurnstileSolver.setup_context true (some lines) chosen = ProxyConfig.noProxy ∧
        TurnstileAPIServer.proxyContext (some lines) chosen =
          Except.error PyExc.invalidProxyFormat) := by
  intro lines chosen hne
  have hemp : (stripLines lines).isEmpty = false := by
    cases hl : stripLines lines with
    | nil => exact absurd hl hne
    | cons a l => rfl
  have hcore : TurnstileSolver.setup_context true (some lines) chosen =
      (match pySplit (chooseProxy (stripLines lines) chosen) ':' with
       | [_, _, _] => ProxyConfig.server (chooseProxy (stripLines lines) chosen)
       | [scheme, ip, port, user, pass_] =>
           ProxyConfig.auth (scheme ++ "://" ++ ip ++ ":" ++ port) user pass_
       | _ => ProxyConfig.noProxy) := by
    show (if (stripLines lines).isEmpty = true then ProxyConfig.noProxy else _) = _
    rw [hemp, if_neg (by simp)]
  have hleg : TurnstileAPIServer.proxyContext (some lines) chosen =
      (match pySplit (chooseProxy (stripLines lines) chosen) ':' with
       | [_, _, _] => Except.ok (ProxyConfig.server (chooseProxy (stripLines lines) chosen))
       | [scheme, ip, port, user, pass_] =>
           Except.ok (ProxyConfig.auth (scheme ++ "://" ++ ip ++ ":" ++ port) user pass_)
       | _ => Except.error PyExc.invalidProxyFormat) := by
    show (if (stripLines lines).isEmpty = true then Except.ok ProxyConfig.noProxy else _) = _
    rw [hemp, if_neg (by simp)]
  refine ⟨?_, ?_, ?_⟩
  · intro h3
    obtain ⟨a, b, c, heq⟩ := List.length_eq_three.mp h3
    rw [hcore, hleg, heq]
    exact ⟨rfl, rfl⟩
  · intro a b c d e heq
    rw [hcore, hleg, heq]
    exact ⟨rfl, rfl⟩
  · intro h3 h5
    rw [hcore, hleg]
    rcases hsp : pySplit (chooseProxy (stripLines lines) chosen) ':' with
      _ | ⟨a, _ | ⟨b, _ | ⟨c, _ | ⟨d, _ | ⟨e, _ | ⟨f, rest⟩⟩⟩⟩⟩⟩
    · exact ⟨rfl, rfl⟩
    · exact ⟨rfl, rfl⟩
    · exact ⟨rfl, rfl⟩
    · exact absurd (by rw [hsp]; rfl) h3
    · exact ⟨rfl, rfl⟩
    · exact absurd (by rw [hsp]; rfl) h5
    · exact ⟨rfl, rfl⟩

/-- Witness for C3 at the three concrete entries from the spec. -/
theorem claim_C3_witness :
    TurnstileSolver.setup_context true (some ["socks5:1.2.3.4:1080"]) 0 =
      ProxyConfig.server (chooseProxy (stripLines ["socks5:1.2.3.4:1080"]) 0) ∧
    TurnstileAPIServer.proxyContext (some ["http:1.2.3.4:8080:user:pass"]) 0 =
      Except.ok (ProxyConfig.auth ("http" ++ "://" ++ "1.2.3.4" ++ ":" ++ "8080") "user" "pass") ∧
    TurnstileAPIServer.proxyContext (some ["bad:format"]) 0 =
      Except.error PyExc.invalidProxyFormat :=
  ⟨((claim_C3 ["socks5:1.2.3.4:1080"] 0 (by decide)).1 (by decide)).1,
   ((claim_C3 ["http:1.2.3.4:8080:user:pass"] 0 (by decide)).2.1
      "http" "1.2.3.4" "8080" "user" "pass" (by decide)).2,
   ((claim_C3 ["bad:format"] 0 (by decide)).2.2 (by decide) (by decide)).2⟩

theorem solve_snd_eq (url sitekey action cdata : Option String) (env : CoreEnv)
    (pool : Nat) (h : 1 ≤ pool) :
    (TurnstileSolver.solve url sitekey action cdata env pool).2 = pool := by
  unfold TurnstileSolver.solve
  split
  · rfl
  · split
    · show pool - 1 + 1 = pool
      omega
    · split
      · split
        · show pool - 1 + 1 = pool
          omega
        · show pool - 1 + 1 = pool
          omega
      · show pool - 1 + 1 = pool
        omega

theorem runCoreCalls_eq (thread : Nat) (h : 1 ≤ thread) :
    ∀ calls : List CoreCall, runCoreCalls calls thread = thread := by
  intro calls
  induction calls with
  | nil => rfl
  | cons c cs ih =>
    show runCoreCalls cs
        (TurnstileSolver.solve c.url c.sitekey c.action c.cdata c.env thread).2 = thread
    rw [solve_snd_eq _ _ _ _ _ _ h]
    exact ih

theorem legacy_pool_eq (ps : Bool) (url sitekey action cdata : Option String)
    (env : LegacyEnv) (pool : Nat) (h : 1 ≤ pool)
    (hctx : exceptOk (TurnstileAPIServer.contextSetup ps env.proxyFile env.chosenProxy) = true)
    (hpage : env.pageOk = true) :
    (TurnstileAPIServer.solve_turnstile ps url sitekey action cdata env pool).pool = pool := by
  unfold TurnstileAPIServer.solve_turnstile
  cases hcs : TurnstileAPIServer.contextSetup ps env.proxyFile env.chosenProxy with
  | error e =>
    rw [hcs] at hctx
    exact absurd hctx (by simp [exceptOk])
  | ok pc =>
    rw [hpage]
    cases hatt : legacyAttempt env with
    | ok r =>
      show pool - 1 + 1 = pool
      omega
    | error msg =>
      show pool - 1 + 1 = pool
      omega

/-- Claim C1 counterexample: a single legacy `_solve_turnstile` call on
a 2-slot pool, with proxy support enabled and a malformed proxy entry
(`"bad:format"`) on file, leaves the free-slot count at 1, not 2: the
`ValueError` is raised after `browser_pool.get()` but before the
`try`/`except` that returns the slot (src/backup.py lines 131-153). -/
theorem claim_C1_cex :
    (TurnstileAPIServer.solve_turnstile true (some "https://example.com")
        (some "0x4AAAAAAA") none none badProxyEnv 2).pool = 1 ∧
    (TurnstileAPIServer.solve_turnstile true (some "https://example.com")
        (some "0x4AAAAAAA") none none badProxyEnv 2).pool ≠ 2 := by
  refine ⟨?_, ?_⟩ <;> decide

/-- Claim C1 (corrected): pool-slot conservation holds for every Solver
Core `solve` call (so any finite sequence of completed calls leaves the
free-slot count at exactly `thread`), and for every Legacy Server
`_solve_turnstile` call whose pre-`try` phase (proxy parsing and page
creation) does not raise; when that phase raises — malformed proxy
entry, missing `proxies.txt`, or a page-creation fault — the legacy call
completes without returning the slot (see the counterexample). -/
theorem claim_C1 :
    (∀ url sitekey action cdata env pool, 1 ≤ pool →
      (TurnstileSolver.solve url sitekey action cdata env pool).2 = pool) ∧
    (∀ thread, 1 ≤ thread → ∀ calls : List CoreCall,
      runCoreCalls calls thread = thread) ∧
    (∀ ps url sitekey action cdata env pool, 1 ≤ pool →
      exceptOk (TurnstileAPIServer.contextSetup ps env.proxyFile env.chosenProxy) = true →
      env.pageOk = true →
      (TurnstileAPIServer.solve_turnstile ps url sitekey action cdata env pool).pool = pool) :=
  ⟨fun url sitekey action cdata env pool h => solve_snd_eq url sitekey action cdata env pool h,
   fun thread h calls => runCoreCalls_eq thread h calls,
   fun ps url sitekey action cdata env pool h hctx hpage =>
     legacy_pool_eq ps url sitekey action cdata env pool h hctx hpage⟩

/-- Witness for C1 at concrete calls on a 2-slot pool. -/
theorem claim_C1_witness :
    (TurnstileSolver.solve (some "https://example.com") (some "0x4AAAAAAA")
        none none okCoreEnv 2).2 = 2 ∧
    runCoreCalls [] 2 = 2 ∧
    (TurnstileAPIServer.solve_turnstile false (some "https://example.com")
        (some "0x4AAAAAAA") none none okLegacyEnv 2).pool = 2 :=
  ⟨claim_C1.1 _ _ _ _ okCoreEnv 2 (by omega),
   claim_C1.2.1 2 (by omega) [],
   claim_C1.2.2 false _ _ _ _ okLegacyEnv 2 (by omega) (by decide) rfl⟩

theorem solveOnPage_ok_time (env : CoreEnv) (r : SolveResult)
    (h : solveOnPage env = Except.ok r) : r.time.isSome = true := by
  unfold solveOnPage at h
  split at h
  · exact absurd h (by simp)
  · split at h
    · exact absurd h (by simp)
    · split at h
      · exact absurd h (by simp)
      · rcases hpl : pollLoop env 0 with _ | r2
        · rw [hpl] at h
          have h2 : (Except.error "Failed to get Turnstile token after 30 attempts" :
              Except String SolveResult) = Except.ok r := h
          exact absurd h2 (by simp)
        · rw [hpl] at h
          have h2 : (Except.ok r2 : Except String SolveResult) = Except.ok r := h
          cases h2
          exact pollLoop_time_isSome env 0 r hpl

/-- Claim C5 (confirmed): a `solve` call with a missing or empty `url`
or `sitekey` returns the structured validation error immediately, with
the pool untouched, and that result has no `time` key; moreover `time`
is absent from the returned result exactly when the validation fault
occurred (every other exit carries an elapsed time). -/
theorem claim_C5 :
    (∀ url sitekey action cdata env pool,
      (pyFalsy url || pyFalsy sitekey) = true →
      TurnstileSolver.solve url sitekey action cdata env pool =
        ({ status := "error", token := none,
           error := some "Both 'url' and 'sitekey' are required", time := none }, pool)) ∧
    (∀ url sitekey action cdata env pool,
      ((TurnstileSolver.solve url sitekey action cdata env pool).1.time = none ↔
        (pyFalsy url || pyFalsy sitekey) = true)) := by
  constructor
  · intro url sitekey action cdata env pool hval
    unfold TurnstileSolver.solve
    rw [if_pos hval]
  · intro url sitekey action cdata env pool
    by_cases hval : (pyFalsy url || pyFalsy sitekey) = true
    · unfold TurnstileSolver.solve
      rw [if_pos hval]
      simp [hval]
    · unfold TurnstileSolver.solve
      rw [if_neg hval]
      constructor
      · intro htime
        exfalso
        revert htime
        split
        · simp
        · split
          next r hsop =>
            have hr := solveOnPage_ok_time env r hsop
            split
            · intro htime
              rw [htime] at hr
              simp at hr
            · simp
          next msg hsop => simp
      · intro hcontra
        exact absurd hcontra hval

/-- Witness for C5: an empty `sitekey` is rejected without touching the
pool, and the validation result is precisely the one with no `time`. -/
theorem claim_C5_witness :
    (pyFalsy (some "https://example.com") || pyFalsy (some "")) = true ∧
    TurnstileSolver.solve (some "https://example.com") (some "") none none okCoreEnv 2 =
      ({ status := "error", token := none,
         error := some "Both 'url' and 'sitekey' are required", time := none }, 2) ∧
    ((TurnstileSolver.solve (some "https://example.com") (some "") none none okCoreEnv 2).1.time
        = none ↔ (pyFalsy (some "https://example.com") || pyFalsy (some "")) = true) :=
  ⟨by decide,
   claim_C5.1 (some "https://example.com") (some "") none none okCoreEnv 2 (by decide),
   claim_C5.2 (some "https://example.com") (some "") none none okCoreEnv 2⟩

/-- Claim C6 (confirmed): when a validated `solve` call reaches the poll
loop and the hidden `cf-turnstile-response` field never becomes
non-empty across all 30 attempts, the call returns
`{status:"error", error:"Failed to get Turnstile token after 30
attempts", time:t}` with `t ≥ 0` the elapsed time rounded to 3
decimals. -/
theorem claim_C6 :
    ∀ url sitekey action cdata (env : CoreEnv) pool,
      pyFalsy url = false → pyFalsy sitekey = false →
      env.contextOk = true → env.gotoOk = true → env.widgetAppears = true →
      env.clickOk = true →
      (∀ j : Fin 30, noTok (env.polls j) = true) →
      env.startTime ≤ env.failTime →
      (TurnstileSolver.solve url sitekey action cdata env pool).1 =
        { status := "error", token := none,
          error := some "Failed to get Turnstile token after 30 attempts",
          time := some (round3 (env.failTime - env.startTime)) } ∧
      0 ≤ round3 (env.failTime - env.startTime) := by
  intro url sitekey action cdata env pool hurl hsk hctx hgoto hwidget hclick hpoll htime
  have hploop := pollLoop_eq_none env hpoll 0
  have hsop : solveOnPage env =
      Except.error "Failed to get Turnstile token after 30 attempts" := by
    unfold solveOnPage
    rw [hgoto, hwidget, hclick]
    show (match pollLoop env 0 with
          | some r => Except.ok r
          | none => Except.error "Failed to get Turnstile token after 30 attempts") = _
    rw [hploop]
  refine ⟨?_, round3_nonneg _ (by linarith)⟩
  unfold TurnstileSolver.solve
  rw [if_neg (by simp [hurl, hsk]), hctx]
  show (match solveOnPage env with
        | Except.ok r =>
            if env.closeOk then (r, pool - 1 + 1)
            else ({ status := "error", token := none, error := some env.closeErrMsg,
                    time := some (round3 (env.failTime - env.startTime)) }, pool - 1 + 1)
        | Except.error msg =>
            ({ status := "error", token := none, error := some msg,
               time := some (round3 (env.failTime - env.startTime)) }, pool - 1 + 1)).1 =
      { status := "error", token := none,
        error := some "Failed to get Turnstile token after 30 attempts",
        time := some (round3 (env.failTime - env.startTime)) }
  rw [hsop]

/-- Witness for C6: a concrete environment whose 30 poll attempts all
raise. -/
theorem claim_C6_witness :
    (TurnstileSolver.solve (some "https://example.com") (some "0x4AAAAAAA")
        none none okCoreEnv 2).1 =
      { status := "error", token := none,
        error := some "Failed to get Turnstile token after 30 attempts",
        time := some (round3 (okCoreEnv.failTime - okCoreEnv.startTime)) } ∧
    0 ≤ round3 (okCoreEnv.failTime - okCoreEnv.startTime) :=
  claim_C6 (some "https://example.com") (some "0x4AAAAAAA") none none okCoreEnv 2
    (by decide) (by decide) rfl rfl rfl rfl (fun j => rfl) (by decide)

/-- Claim C7 (confirmed): if the token never appears within the Legacy
Server's 15 poll attempts, `_solve_turnstile` yields a structured error
result with message `"Failed to get Turnstile token after 15 attempts"`
carrying the elapsed time; and for this and every other exception
escaping the attempt (the `try` block), the outer handler closes the
browsing context and returns the slot to the pool before yielding the
error result. -/
theorem claim_C7 :
    ∀ ps url sitekey action cdata (env : LegacyEnv) pool,
      1 ≤ pool →
      exceptOk (TurnstileAPIServer.contextSetup ps env.proxyFile env.chosenProxy) = true →
      env.pageOk = true →
      ((env.gotoOk = true → env.resizeOk = true →
        (∀ j : Fin 15, noTok15 (env.polls j) = true) →
        TurnstileAPIServer.solve_turnstile ps url sitekey action cdata env pool =
          { outcome := Except.ok
              { status := "error", token := none,
                error := some "Failed to get Turnstile token after 15 attempts",
                time := some (round3 (env.failTime - env.startTime)) },
            pool := pool, contextClosed := true }) ∧
       (∀ msg, legacyAttempt env = Except.error msg →
        TurnstileAPIServer.solve_turnstile ps url sitekey action cdata env pool =
          { outcome := Except.ok
              { status := "error", token := none, error := some msg,
                time := some (round3 (env.failTime - env.startTime)) },
            pool := pool, contextClosed := true })) := by
  intro ps url sitekey action cdata env pool hpool hctx hpage
  have key : ∀ msg, legacyAttempt env = Except.error msg →
      TurnstileAPIServer.solve_turnstile ps url sitekey action cdata env pool =
        { outcome := Except.ok
            { status := "error", token := none, error := some msg,
              time := some (round3 (env.failTime - env.startTime)) },
          pool := pool, contextClosed := true } := by
    intro msg hatt
    unfold TurnstileAPIServer.solve_turnstile
    cases hcs : TurnstileAPIServer.contextSetup ps env.proxyFile env.chosenProxy with
    | error e =>
      rw [hcs] at hctx
      exact absurd hctx (by simp [exceptOk])
    | ok pc =>
      rw [hpage, hatt]
      have hp : pool - 1 + 1 = pool := by omega
      show LegacyResult.mk
          (Except.ok (SolveResult.mk "error" none (some msg)
            (some (round3 (env.failTime - env.startTime)))))
          (pool - 1 + 1) true = _
      rw [hp]
  refine ⟨?_, key⟩
  intro hgoto hresize hpoll
  apply key
  unfold legacyAttempt
  rw [hgoto, hresize]
  show legacyPollLoop env 0 = _
  exact legacyPollLoop_error_of_noTok env hpoll 0

/-- Witness for C7: a concrete legacy call whose 15 poll attempts all
raise. -/
theorem claim_C7_witness :
    TurnstileAPIServer.solve_turnstile false (some "https://example.com")
        (some "0x4AAAAAAA") none none okLegacyEnv 2 =
      { outcome := Except.ok
          { status := "error", token := none,
            error := some "Failed to get Turnstile token after 15 attempts",
            time := some (round3 (okLegacyEnv.failTime - okLegacyEnv.startTime)) },
        pool := 2, contextClosed := true } :=
  (claim_C7 false (some "https://example.com") (some "0x4AAAAAAA") none none okLegacyEnv 2
    (by omega) (by decide) rfl).1 rfl rfl (fun j => rfl)

/-- `okLegacyEnv` whose navigation step raises. -/
def gotoFailEnv : LegacyEnv := { okLegacyEnv with gotoOk := false, gotoErrMsg := "net down" }

/-- Claim C8 (confirmed): `/turnstile` returns 400 with the exact
required-fields body when `url` or `sitekey` is missing; otherwise the
solve routine's result is returned with 200 when its status is
`"success"` and 422 when it is `"error"`; an exception escaping the
solve routine is reported as 500 with `str(e)` in the body. -/
theorem claim_C8 :
    (∀ ps url sitekey action cdata (env : LegacyEnv) pool,
      (pyFalsy url || pyFalsy sitekey) = true →
      TurnstileAPIServer.process_turnstile ps url sitekey action cdata env pool =
        (({ status := "error", token := none,
            error := some "Both 'url' and 'sitekey' are required", time := none }, 400),
         pool)) ∧
    (∀ ps url sitekey action cdata (env : LegacyEnv) pool r,
      (pyFalsy url || pyFalsy sitekey) = false →
      (TurnstileAPIServer.solve_turnstile ps url sitekey action cdata env pool).outcome =
        Except.ok r →
      r.status = "success" →
      TurnstileAPIServer.process_turnstile ps url sitekey action cdata env pool =
        ((r, 200),
         (TurnstileAPIServer.solve_turnstile ps url sitekey action cdata env pool).pool)) ∧
    (∀ ps url sitekey action cdata (env : LegacyEnv) pool r,
      (pyFalsy url || pyFalsy sitekey) = false →
      (TurnstileAPIServer.solve_turnstile ps url sitekey action cdata env pool).outcome =
        Except.ok r →
      r.status = "error" →
      TurnstileAPIServer.process_turnstile ps url sitekey action cdata env pool =
        ((r, 422),
         (TurnstileAPIServer.solve_turnstile ps url sitekey action cdata env pool).pool)) ∧
    (∀ ps url sitekey action cdata (env : LegacyEnv) pool e,
      (pyFalsy url || pyFalsy sitekey) = false →
      (TurnstileAPIServer.solve_turnstile ps url sitekey action cdata env pool).outcome =
        Except.error e →
      TurnstileAPIServer.process_turnstile ps url sitekey action cdata env pool =
        (({ status := "error", token := none, error := some e.message, time := none }, 500),
         (TurnstileAPIServer.solve_turnstile ps url sitekey action cdata env pool).pool)) := by
  refine ⟨?_, ?_, ?_, ?_⟩
  · intro ps url sitekey action cdata env pool hval
    unfold TurnstileAPIServer.process_turnstile
    rw [if_pos hval]
  · intro ps url sitekey action cdata env pool r hval hout hstat
    unfold TurnstileAPIServer.process_turnstile
    rw [if_neg (by simp [hval])]
    show (match (TurnstileAPIServer.solve_turnstile ps url sitekey action cdata env pool).outcome with
          | Except.ok result =>
              ((result, if result.status = "success" then 200 else 422),
                (TurnstileAPIServer.solve_turnstile ps url sitekey action cdata env pool).pool)
          | Except.error e =>
              ((SolveResult.mk "error" none (some e.message) none, 500),
                (TurnstileAPIServer.solve_turnstile ps url sitekey action cdata env pool).pool)) = _
    rw [hout]
    show ((r, if r.status = "success" then 200 else 422),
        (TurnstileAPIServer.solve_turnstile ps url sitekey action cdata env pool).pool) =
      ((r, 200), (TurnstileAPIServer.solve_turnstile ps url sitekey action cdata env pool).pool)
    rw [hstat]
    rfl
  · intro ps url sitekey action cdata env pool r hval hout hstat
    unfold TurnstileAPIServer.process_turnstile
    rw [if_neg (by simp [hval])]
    show (match (TurnstileAPIServer.solve_turnstile ps url sitekey action cdata env pool).outcome with
          | Except.ok result =>
              ((result, if result.status = "success" then 200 else 422),
                (TurnstileAPIServer.solve_turnstile ps url sitekey action cdata env pool).pool)
          | Except.error e =>
              ((SolveResult.mk "error" none (some e.message) none, 500),
                (TurnstileAPIServer.solve_turnstile ps url sitekey action cdata env pool).pool)) = _
    rw [hout]
    show ((r, if r.status = "success" then 200 else 422),
        (TurnstileAPIServer.solve_turnstile ps url sitekey action cdata env pool).pool) =
      ((r, 422), (TurnstileAPIServer.solve_turnstile ps url sitekey action cdata env pool).pool)
    rw [hstat]
    rfl
  · intro ps url sitekey action cdata env pool e hval hout
    unfold TurnstileAPIServer.process_turnstile
    rw [if_neg (by simp [hval])]
    show (match (TurnstileAPIServer.solve_turnstile ps url sitekey action cdata env pool).outcome with
          | Except.ok result =>
              ((result, if result.status = "success" then 200 else 422),
                (TurnstileAPIServer.solve_turnstile ps url sitekey action cdata env pool).pool)
          | Except.error e =>
              ((SolveResult.mk "error" none (some e.message) none, 500),
                (TurnstileAPIServer.solve_turnstile ps url sitekey action cdata env pool).pool)) = _
    rw [hout]

/-- Witness for C8: concrete 400, 422 and 500 responses. -/
theorem claim_C8_witness :
    TurnstileAPIServer.process_turnstile false none (some "0x4AAAAAAA")
        none none okLegacyEnv 2 =
      (({ status := "error", token := none,
          error := some "Both 'url' and 'sitekey' are required", time := none }, 400), 2) ∧
    TurnstileAPIServer.process_turnstile false (some "https://example.com") (some "0x4AAAAAAA")
        none none gotoFailEnv 2 =
      (({ status := "error", token := none, error := some "net down",
          time := some (round3 (gotoFailEnv.failTime - gotoFailEnv.startTime)) }, 422),
       (TurnstileAPIServer.solve_turnstile false (some "https://example.com")
          (some "0x4AAAAAAA") none none gotoFailEnv 2).pool) ∧
    TurnstileAPIServer.process_turnstile true (some "https://example.com") (some "0x4AAAAAAA")
        none none badProxyEnv 2 =
      (({ status := "error", token := none, error := some "Invalid proxy format",
          time := none }, 500),
       (TurnstileAPIServer.solve_turnstile true (some "https://example.com")
          (some "0x4AAAAAAA") none none badProxyEnv 2).pool) :=
  ⟨claim_C8.1 false none (some "0x4AAAAAAA") none none okLegacyEnv 2 (by decide),
   claim_C8.2.2.1 false (some "https://example.com") (some "0x4AAAAAAA") none none gotoFailEnv 2
     { status := "error", token := none, error := some "net down",
       time := some (round3 (gotoFailEnv.failTime - gotoFailEnv.startTime)) }
     (by decide) rfl rfl,
   claim_C8.2.2.2 true (some "https://example.com") (some "0x4AAAAAAA") none none badProxyEnv 2
     PyExc.invalidProxyFormat (by decide) rfl⟩

theorem load_config_obj_noapi (kvs : JObj) (h : jlookup kvs "api" = none) :
    load_config (ConfigFile.parsed (JValue.obj kvs)) = dictUpdate default_config kvs := by
  show (match jlookup kvs "api" with
        | some (JValue.obj apiKvs) =>
            insertKV (dictUpdate default_config kvs) "api"
              (JValue.obj (dictUpdate default_api apiKvs))
        | some _ => default_config
        | none => dictUpdate default_config kvs) = dictUpdate default_config kvs
  rw [h]

theorem load_config_obj_api (kvs akvs : JObj)
    (h : jlookup kvs "api" = some (JValue.obj akvs)) :
    load_config (ConfigFile.parsed (JValue.obj kvs)) =
      insertKV (dictUpdate default_config kvs) "api"
        (JValue.obj (dictUpdate default_api akvs)) := by
  show (match jlookup kvs "api" with
        | some (JValue.obj apiKvs) =>
            insertKV (dictUpdate default_config kvs) "api"
              (JValue.obj (dictUpdate default_api apiKvs))
        | some _ => default_config
        | none => dictUpdate default_config kvs) =
      insertKV (dictUpdate default_config kvs) "api"
        (JValue.obj (dictUpdate default_api akvs))
  rw [h]

/-- Claim C2 (confirmed): `load_config()` with no file and on any
read/parse failure returns exactly the defaults; a parseable object is
merged shallowly over the defaults with a one-level merge of its `api`
sub-object over the default `api` (characterised here by key lookup),
and the concrete file `{"thread":4, "api":{"port":9000}}` yields
`thread = 4`, `api.port = 9000` with `headless`, `api.host` and
`api.enabled` unchanged; the function is total, so it never raises. -/
theorem claim_C2 :
    load_config ConfigFile.missing = default_config ∧
    load_config ConfigFile.unreadable = default_config ∧
    (∀ kvs : JObj, keysNodup kvs → jlookup kvs "api" = none →
      ∀ k, jlookup (load_config (ConfigFile.parsed (JValue.obj kvs))) k =
        orElseO (jlookup kvs k) (jlookup default_config k)) ∧
    (∀ kvs akvs : JObj, keysNodup kvs → keysNodup akvs →
      jlookup kvs "api" = some (JValue.obj akvs) →
      (∀ k, k ≠ "api" →
        jlookup (load_config (ConfigFile.parsed (JValue.obj kvs))) k =
          orElseO (jlookup kvs k) (jlookup default_config k)) ∧
      jlookup (load_config (ConfigFile.parsed (JValue.obj kvs))) "api" =
        some (JValue.obj (dictUpdate default_api akvs)) ∧
      (∀ k, jlookup (dictUpdate default_api akvs) k =
        orElseO (jlookup akvs k) (jlookup default_api k))) ∧
    load_config (ConfigFile.parsed (JValue.obj
        [("thread", JValue.num 4), ("api", JValue.obj [("port", JValue.num 9000)])])) =
      [("headless", JValue.bool true), ("thread", JValue.num 4),
       ("browser_type", JValue.str "chromium"), ("proxy_support", JValue.bool false),
       ("api", JValue.obj
         [("enabled", JValue.bool false), ("host", JValue.str "0.0.0.0"),
          ("port", JValue.num 9000)])] := by
  refine ⟨rfl, rfl, ?_, ?_, ?_⟩
  · intro kvs hnd hapi k
    rw [load_config_obj_noapi kvs hapi, jlookup_dictUpdate _ _ hnd k]
  · intro kvs akvs hnd hand hapi
    refine ⟨?_, ?_, ?_⟩
    · intro k hk
      rw [load_config_obj_api kvs akvs hapi, jlookup_insertKV, if_neg hk,
          jlookup_dictUpdate _ _ hnd k]
    · rw [load_config_obj_api kvs akvs hapi, jlookup_insertKV, if_pos rfl]
    · intro k
      exact jlookup_dictUpdate _ _ hand k
  · rfl

/-- Witness for C2: the general merge characterisation applied to the
concrete file `{"thread":4, "api":{"port":9000}}`. -/
theorem claim_C2_witness :
    keysNodup [("thread", JValue.num 4), ("api", JValue.obj [("port", JValue.num 9000)])] ∧
    jlookup (load_config (ConfigFile.parsed (JValue.obj
        [("thread", JValue.num 4), ("api", JValue.obj [("port", JValue.num 9000)])]))) "thread" =
      orElseO
        (jlookup [("thread", JValue.num 4), ("api", JValue.obj [("port", JValue.num 9000)])]
          "thread")
        (jlookup default_config "thread") :=
  ⟨by decide,
   (claim_C2.2.2.2.1 [("thread", JValue.num 4), ("api", JValue.obj [("port", JValue.num 9000)])]
      [("port", JValue.num 9000)] (by decide) (by decide) rfl).1 "thread" (by decide)⟩
